import Mathlib

/-!
Verification of the HuntingParty backend pipeline (src/backend/api/main.py).

The Python source is shallowly embedded here:
* Python `float` values are modelled as exact rationals (`ℚ`); the numeric
  claims under study are exact-arithmetic claims.
* `Optional[...]` fields are modelled as `Option ...`; Python truthiness of an
  optional number (`None` and `0` are falsy) is expanded at each use site,
  exactly as the source expressions read.
* Python `str` payloads that the claims inspect character by character
  (the deviation comments) are modelled as `List Char`; identifier-like
  strings (metric names, addresses) stay `String`.
* Exception control flow is modelled with `Except`/`Option`.
-/

namespace HuntingParty

/-! ## Data model (the `@dataclass` definitions of main.py) -/

/-- `PropertySummary` dataclass. -/
structure PropertySummary where
  address : String
  opportunity_zone : Bool
  cap_rate : ℚ
  rentable_sqft : ℤ
  avg_sqft_per_unit : ℚ
  asking_price : ℚ
  lot_size_acres : ℚ
  total_units : ℤ
deriving DecidableEq

/-- `UnitRentData` dataclass: four independently optional monthly rents. -/
structure UnitRentData where
  one_bed : Option ℚ := none
  two_bed : Option ℚ := none
  three_bed : Option ℚ := none
  four_bed : Option ℚ := none
deriving DecidableEq

/-- `FinancialMetrics` dataclass. -/
structure FinancialMetrics where
  noi : ℚ
  cap_rate : ℚ
  price_per_sqft : ℚ
  price_per_unit : ℚ
  price_per_acre : ℚ
deriving DecidableEq

/-- `VacancyEGIData` dataclass. -/
structure VacancyEGIData where
  vacancy_rate : ℚ
  gross_potential_rent : ℚ
  effective_gross_income : ℚ
deriving DecidableEq

/-- `CompProperty` dataclass: a comparable listing, every numeric field
independently optional. -/
structure CompProperty where
  source : String
  address : String
  price : Option ℚ := none
  units : Option ℤ := none
  cap_rate : Option ℚ := none
  price_per_unit : Option ℚ := none
  price_per_sqft : Option ℚ := none
  price_per_acre : Option ℚ := none
  noi : Option ℚ := none
  distance_miles : Option ℚ := none
  unit_rents : Option UnitRentData := none
deriving DecidableEq

/-- `CompStats` dataclass.  Note the field types of the source: `avg_price`,
`avg_units`, `avg_price_per_unit` and `avg_price_per_sqft` are plain floats
while `avg_cap_rate`, `avg_price_per_acre`, `avg_noi` and `avg_unit_rents`
are `Optional`. -/
structure CompStats where
  total_scraped : ℕ
  filtered_count : ℕ
  avg_price : ℚ
  avg_units : ℚ
  avg_cap_rate : Option ℚ
  avg_price_per_unit : ℚ
  avg_price_per_sqft : ℚ
  avg_price_per_acre : Option ℚ
  avg_noi : Option ℚ
  avg_unit_rents : Option UnitRentData := none
deriving DecidableEq

/-- `ComparisonResult` dataclass. -/
structure ComparisonResult where
  metric_name : String
  om_value : Option ℚ
  market_value : Option ℚ
  deviation_percent : Option ℚ
  deviation_comment : List Char
deriving DecidableEq

/-- `CompFilterRequest` pydantic model: 13 optional bounds, all `None` by
default. -/
structure CompFilterRequest where
  price_min : Option ℚ := none
  price_max : Option ℚ := none
  units_min : Option ℤ := none
  units_max : Option ℤ := none
  distance_miles : Option ℚ := none
  cap_rate_min : Option ℚ := none
  cap_rate_max : Option ℚ := none
  price_per_unit_min : Option ℚ := none
  price_per_unit_max : Option ℚ := none
  price_per_sqft_min : Option ℚ := none
  price_per_sqft_max : Option ℚ := none
  price_per_acre_min : Option ℚ := none
  price_per_acre_max : Option ℚ := none
deriving DecidableEq

/-- A `CompFilterRequest()` with every bound left at its `None` default. -/
def noFilters : CompFilterRequest := {}

/-! ## Filter engine (`apply_filters`)

Each Python guard reads
`if filters.B and comp.F and comp.F OP filters.B: continue`.
Truthiness of `filters.B` / `comp.F` means: not `None` and not `0`.
`ltGuard` is the rejection test of a `*_min` bound (`comp.F < filters.B`),
`gtGuard` of a `*_max`/distance bound (`comp.F > filters.B`). -/

/-- Rejection test of a min bound: fires iff the bound is set and truthy, the
field is present and truthy, and the value is below the bound. -/
def ltGuard {α : Type} [LinearOrder α] [Zero α] [DecidableEq α]
    (bound val : Option α) : Bool :=
  match bound with
  | none => false
  | some b =>
    match val with
    | none => false
    | some v => decide (b ≠ 0 ∧ v ≠ 0 ∧ v < b)

/-- Rejection test of a max bound: fires iff the bound is set and truthy, the
field is present and truthy, and the value is above the bound. -/
def gtGuard {α : Type} [LinearOrder α] [Zero α] [DecidableEq α]
    (bound val : Option α) : Bool :=
  match bound with
  | none => false
  | some b =>
    match val with
    | none => false
    | some v => decide (b ≠ 0 ∧ v ≠ 0 ∧ b < v)

/-- A comparable is appended to `filtered_comps` iff none of the 13 `continue`
guards of `apply_filters` fires, in source order. -/
def keep (filters : CompFilterRequest) (comp : CompProperty) : Bool :=
  !(ltGuard filters.price_min comp.price) &&
  !(gtGuard filters.price_max comp.price) &&
  !(ltGuard filters.units_min comp.units) &&
  !(gtGuard filters.units_max comp.units) &&
  !(gtGuard filters.distance_miles comp.distance_miles) &&
  !(ltGuard filters.cap_rate_min comp.cap_rate) &&
  !(gtGuard filters.cap_rate_max comp.cap_rate) &&
  !(ltGuard filters.price_per_unit_min comp.price_per_unit) &&
  !(gtGuard filters.price_per_unit_max comp.price_per_unit) &&
  !(ltGuard filters.price_per_sqft_min comp.price_per_sqft) &&
  !(gtGuard filters.price_per_sqft_max comp.price_per_sqft) &&
  !(ltGuard filters.price_per_acre_min comp.price_per_acre) &&
  !(gtGuard filters.price_per_acre_max comp.price_per_acre)

/-- `apply_filters`: the loop that appends every comparable surviving all
guards, preserving input order. -/
def apply_filters : List CompProperty → CompFilterRequest → List CompProperty
  | [], _ => []
  | comp :: rest, filters =>
    if keep filters comp then comp :: apply_filters rest filters
    else apply_filters rest filters

/-! ### Spec-side survival predicate (from the spec's words, as amended)

A comparable survives a set bound when the bound is zero (falsy), the field is
absent, the field is zero (falsy), or the field satisfies the bound. -/

/-- Spec-side survival of one min bound. -/
def SpecSurvivesMin {α : Type} [LinearOrder α] [Zero α]
    (bound val : Option α) : Prop :=
  ∀ b v, bound = some b → b ≠ 0 → val = some v → v ≠ 0 → b ≤ v

/-- Spec-side survival of one max bound. -/
def SpecSurvivesMax {α : Type} [LinearOrder α] [Zero α]
    (bound val : Option α) : Prop :=
  ∀ b v, bound = some b → b ≠ 0 → val = some v → v ≠ 0 → v ≤ b

/-- Spec-side survival of the whole filter: every one of the 13 bounds is
survived. -/
def SpecSurvives (f : CompFilterRequest) (c : CompProperty) : Prop :=
  SpecSurvivesMin f.price_min c.price ∧
  SpecSurvivesMax f.price_max c.price ∧
  SpecSurvivesMin f.units_min c.units ∧
  SpecSurvivesMax f.units_max c.units ∧
  SpecSurvivesMax f.distance_miles c.distance_miles ∧
  SpecSurvivesMin f.cap_rate_min c.cap_rate ∧
  SpecSurvivesMax f.cap_rate_max c.cap_rate ∧
  SpecSurvivesMin f.price_per_unit_min c.price_per_unit ∧
  SpecSurvivesMax f.price_per_unit_max c.price_per_unit ∧
  SpecSurvivesMin f.price_per_sqft_min c.price_per_sqft ∧
  SpecSurvivesMax f.price_per_sqft_max c.price_per_sqft ∧
  SpecSurvivesMin f.price_per_acre_min c.price_per_acre ∧
  SpecSurvivesMax f.price_per_acre_max c.price_per_acre

/-- Relation between two optional bounds: equal, or the first is `some 0` and
the second unset.  Used to state that a zero bound behaves like no bound. -/
def ZeroOrSame {α : Type} [Zero α] (a b : Option α) : Prop :=
  b = a ∨ (a = some 0 ∧ b = none)

/-! ### Filter lemmas -/

theorem apply_filters_eq_filter (comps : List CompProperty)
    (f : CompFilterRequest) :
    apply_filters comps f = comps.filter (fun c => keep f c) := by
  induction comps with
  | nil => rfl
  | cons c rest ih =>
    simp only [apply_filters, List.filter_cons]
    by_cases h : keep f c
    · simp [h, ih]
    · simp [h, ih]

theorem ltGuard_eq_false_iff {α : Type} [LinearOrder α] [Zero α]
    [DecidableEq α] (bound val : Option α) :
    ltGuard bound val = false ↔ SpecSurvivesMin bound val := by
  cases bound with
  | none => simp [ltGuard, SpecSurvivesMin]
  | some b =>
    cases val with
    | none => simp [ltGuard, SpecSurvivesMin]
    | some v =>
      simp only [ltGuard, SpecSurvivesMin, decide_eq_false_iff_not, not_and,
        not_lt, Option.some.injEq]
      constructor
      · intro h b' v' hb hb0 hv hv0
        subst hb; subst hv
        exact h hb0 hv0
      · intro h hb0 hv0
        exact h b v rfl hb0 rfl hv0

theorem gtGuard_eq_false_iff {α : Type} [LinearOrder α] [Zero α]
    [DecidableEq α] (bound val : Option α) :
    gtGuard bound val = false ↔ SpecSurvivesMax bound val := by
  cases bound with
  | none => simp [gtGuard, SpecSurvivesMax]
  | some b =>
    cases val with
    | none => simp [gtGuard, SpecSurvivesMax]
    | some v =>
      simp only [gtGuard, SpecSurvivesMax, decide_eq_false_iff_not, not_and,
        not_lt, Option.some.injEq]
      constructor
      · intro h b' v' hb hb0 hv hv0
        subst hb; subst hv
        exact h hb0 hv0
      · intro h hb0 hv0
        exact h b v rfl hb0 rfl hv0

theorem keep_eq_true_iff (f : CompFilterRequest) (c : CompProperty) :
    keep f c = true ↔ SpecSurvives f c := by
  simp only [keep, Bool.and_eq_true, Bool.not_eq_true', SpecSurvives,
    ltGuard_eq_false_iff, gtGuard_eq_false_iff]
  tauto

theorem ltGuard_congr {α : Type} [LinearOrder α] [Zero α] [DecidableEq α]
    {a b : Option α} (h : ZeroOrSame a b) (v : Option α) :
    ltGuard a v = ltGuard b v := by
  rcases h with h | ⟨h0, hnone⟩
  · rw [h]
  · subst h0; subst hnone
    cases v with
    | none => rfl
    | some v' => simp [ltGuard]

theorem gtGuard_congr {α : Type} [LinearOrder α] [Zero α] [DecidableEq α]
    {a b : Option α} (h : ZeroOrSame a b) (v : Option α) :
    gtGuard a v = gtGuard b v := by
  rcases h with h | ⟨h0, hnone⟩
  · rw [h]
  · subst h0; subst hnone
    cases v with
    | none => rfl
    | some v' => simp [gtGuard]

theorem apply_filters_congr {f g : CompFilterRequest}
    (h : ∀ c, keep f c = keep g c) :
    ∀ comps, apply_filters comps f = apply_filters comps g := by
  intro comps
  induction comps with
  | nil => rfl
  | cons c rest ih =>
    simp only [apply_filters, h c, ih]

theorem keep_noFilters (c : CompProperty) : keep noFilters c = true := rfl

/-! ## Claim theorems about the filter engine -/

/-- C9: filtering with a `FilterCriteria` in which no bound is set returns the
input list unchanged. -/
theorem c9_no_bounds_identity (comps : List CompProperty) :
    apply_filters comps noFilters = comps := by
  induction comps with
  | nil => rfl
  | cons c rest ih =>
    simp only [apply_filters, keep_noFilters, if_true, ih]

/-- C10: replacing any set-to-zero bounds by unset bounds (field by field,
`ZeroOrSame` relates each bound of `f` to the corresponding bound of `g`)
leaves the filter output unchanged: a zero bound imposes no constraint. -/
theorem c10_zero_bound_no_constraint (comps : List CompProperty)
    (f g : CompFilterRequest)
    (h1 : ZeroOrSame f.price_min g.price_min)
    (h2 : ZeroOrSame f.price_max g.price_max)
    (h3 : ZeroOrSame f.units_min g.units_min)
    (h4 : ZeroOrSame f.units_max g.units_max)
    (h5 : ZeroOrSame f.distance_miles g.distance_miles)
    (h6 : ZeroOrSame f.cap_rate_min g.cap_rate_min)
    (h7 : ZeroOrSame f.cap_rate_max g.cap_rate_max)
    (h8 : ZeroOrSame f.price_per_unit_min g.price_per_unit_min)
    (h9 : ZeroOrSame f.price_per_unit_max g.price_per_unit_max)
    (h10 : ZeroOrSame f.price_per_sqft_min g.price_per_sqft_min)
    (h11 : ZeroOrSame f.price_per_sqft_max g.price_per_sqft_max)
    (h12 : ZeroOrSame f.price_per_acre_min g.price_per_acre_min)
    (h13 : ZeroOrSame f.price_per_acre_max g.price_per_acre_max) :
    apply_filters comps f = apply_filters comps g := by
  apply apply_filters_congr (fun c => ?_) comps
  simp only [keep, ltGuard_congr h1, gtGuard_congr h2, ltGuard_congr h3,
    gtGuard_congr h4, gtGuard_congr h5, ltGuard_congr h6, gtGuard_congr h7,
    ltGuard_congr h8, gtGuard_congr h9, ltGuard_congr h10, gtGuard_congr h11,
    ltGuard_congr h12, gtGuard_congr h13]

/-- A comparable whose only reported numeric field is a price of `p`. -/
def compWithPrice (p : ℚ) : CompProperty :=
  { source := "crexi", address := "x", price := some p }

/-- A filter that only sets `price_min := 5`. -/
def filterMin5 : CompFilterRequest := { price_min := some 5 }

/-- A filter that only sets `price_max := 0`. -/
def filterZeroMax : CompFilterRequest := { price_max := some 0 }

/-- C10 witness: with `price_max` set to `0`, filtering a concrete list gives
the same output as with `price_max` unset. -/
theorem c10_witness :
    apply_filters [compWithPrice 5] filterZeroMax =
      apply_filters [compWithPrice 5] noFilters :=
  c10_zero_bound_no_constraint [compWithPrice 5] filterZeroMax noFilters
    (Or.inl rfl) (Or.inr ⟨rfl, rfl⟩) (Or.inl rfl) (Or.inl rfl) (Or.inl rfl)
    (Or.inl rfl) (Or.inl rfl) (Or.inl rfl) (Or.inl rfl) (Or.inl rfl)
    (Or.inl rfl) (Or.inl rfl) (Or.inl rfl)

/-- C2 counterexample: a comparable whose `price` is present with reported
value `0` violates the set bound `price_min = 5` (`0 < 5`), yet it survives
the filter — the claim says it must be excluded. -/
theorem c2_counterexample :
    apply_filters [compWithPrice 0] filterMin5 = [compWithPrice 0] ∧
    (compWithPrice 0).price = some 0 ∧
    filterMin5.price_min = some 5 ∧ ((0 : ℚ) < 5) := by
  refine ⟨rfl, rfl, rfl, by norm_num⟩

/-- C2 (amended): `apply_filters` returns exactly the order-preserving sublist
of comparables that survive every bound, where surviving a set bound means:
the bound is zero, or the field is absent, or the field is reported as `0`,
or the field satisfies the bound (`SpecSurvives`). -/
theorem c2_filter_contract (comps : List CompProperty)
    (f : CompFilterRequest) :
    apply_filters comps f = comps.filter (fun c => keep f c) ∧
    ∀ c, keep f c = true ↔ SpecSurvives f c :=
  ⟨apply_filters_eq_filter comps f, fun c => keep_eq_true_iff f c⟩

/-- C2 witness: the filter contract instantiated on a concrete list and
filter. -/
theorem c2_witness :
    apply_filters [compWithPrice 0] filterMin5 =
      [compWithPrice 0].filter (fun c => keep filterMin5 c) :=
  (c2_filter_contract [compWithPrice 0] filterMin5).1

end HuntingParty

namespace HuntingParty

/-! ## Aggregation engine (`calculate_comp_stats`) -/

/-- `sum(l)/len(l)` over a list of floats. -/
def avg (l : List ℚ) : ℚ := l.sum / (l.length : ℚ)

/-- `sum(l)/len(l)` over a list of ints: Python `/` is true division, the
result is a float. -/
def avgInt (l : List ℤ) : ℚ := (l.sum : ℚ) / (l.length : ℚ)

/-- The non-empty branch of `calculate_comp_stats`: comprehensions keep the
fields that are not `None` (`filterMap`); each average is `sum/len` when its
reporting subset is non-empty, and otherwise the source's fallback (`0` for
`avg_price`, `avg_units`, `avg_price_per_unit`, `avg_price_per_sqft`;
`None` for `avg_cap_rate`, `avg_price_per_acre`, `avg_noi` and the per-bedroom
rent averages). -/
def statsNonempty (comps : List CompProperty) : CompStats :=
  let prices := comps.filterMap (·.price)
  let units := comps.filterMap (·.units)
  let cap_rates := comps.filterMap (·.cap_rate)
  let ppus := comps.filterMap (·.price_per_unit)
  let ppsfs := comps.filterMap (·.price_per_sqft)
  let ppas := comps.filterMap (·.price_per_acre)
  let nois := comps.filterMap (·.noi)
  let urs := comps.filterMap (·.unit_rents)
  { total_scraped := comps.length
    filtered_count := comps.length
    avg_price := if prices.isEmpty then 0 else avg prices
    avg_units := if units.isEmpty then 0 else avgInt units
    avg_cap_rate := if cap_rates.isEmpty then none else some (avg cap_rates)
    avg_price_per_unit := if ppus.isEmpty then 0 else avg ppus
    avg_price_per_sqft := if ppsfs.isEmpty then 0 else avg ppsfs
    avg_price_per_acre := if ppas.isEmpty then none else some (avg ppas)
    avg_noi := if nois.isEmpty then none else some (avg nois)
    avg_unit_rents :=
      if urs.isEmpty then none
      else some
        { one_bed := if (urs.filterMap (·.one_bed)).isEmpty then none
            else some (avg (urs.filterMap (·.one_bed)))
          two_bed := if (urs.filterMap (·.two_bed)).isEmpty then none
            else some (avg (urs.filterMap (·.two_bed)))
          three_bed := if (urs.filterMap (·.three_bed)).isEmpty then none
            else some (avg (urs.filterMap (·.three_bed)))
          four_bed := if (urs.filterMap (·.four_bed)).isEmpty then none
            else some (avg (urs.filterMap (·.four_bed))) } }

/-- `calculate_comp_stats`: `if not comps` returns the constant
`CompStats(0, 0, 0, 0, None, 0, 0, None, None, None)`, otherwise the averages
are computed. -/
def calculate_comp_stats : List CompProperty → CompStats
  | [] => ⟨0, 0, 0, 0, none, 0, 0, none, none, none⟩
  | c :: cs => statsNonempty (c :: cs)

theorem isEmpty_false_of_ne_nil {α : Type} {l : List α} (h : l ≠ []) :
    l.isEmpty = false := by
  cases l with
  | nil => exact absurd rfl h
  | cons a t => rfl

/-- A comparable whose only reported numeric field is a cap rate of `r`. -/
def compWithCap (r : ℚ) : CompProperty :=
  { source := "crexi", address := "x", cap_rate := some r }

/-- C1 counterexample: on the empty list, `calculate_comp_stats` reports the
averages of price, units, price-per-unit and price-per-sqft as `0`, not as
undefined — the claim says an empty reporting subset is represented as
undefined/null for every numeric field, never as `0`. -/
theorem c1_counterexample :
    (calculate_comp_stats []).avg_price = 0 ∧
    (calculate_comp_stats []).avg_units = 0 ∧
    (calculate_comp_stats []).avg_price_per_unit = 0 ∧
    (calculate_comp_stats []).avg_price_per_sqft = 0 :=
  ⟨rfl, rfl, rfl, rfl⟩

/-- C1 (amended): per-field behaviour of `calculate_comp_stats`.  The averages
of `cap_rate`, `price_per_acre`, `noi` and each of the four per-bedroom rents
(`one_bed`, `two_bed`, `three_bed`, `four_bed`) are `none` exactly when their
reporting subset is empty, and the exact arithmetic mean of the reported
values otherwise; the averages of `price`, `units`, `price_per_unit` and
`price_per_sqft` are coerced to `0` on an empty reporting subset, and the
exact mean otherwise.  Counts equal the list length (zero for the empty
list).  Reported values of `[5, 15]` average to exactly `10`. -/
theorem c1_aggregation_contract :
    (∀ comps : List CompProperty,
      ((comps.filterMap (·.cap_rate) = [] →
          (calculate_comp_stats comps).avg_cap_rate = none) ∧
        (comps.filterMap (·.cap_rate) ≠ [] →
          (calculate_comp_stats comps).avg_cap_rate =
            some (avg (comps.filterMap (·.cap_rate))))) ∧
      ((comps.filterMap (·.price_per_acre) = [] →
          (calculate_comp_stats comps).avg_price_per_acre = none) ∧
        (comps.filterMap (·.price_per_acre) ≠ [] →
          (calculate_comp_stats comps).avg_price_per_acre =
            some (avg (comps.filterMap (·.price_per_acre))))) ∧
      ((comps.filterMap (·.noi) = [] →
          (calculate_comp_stats comps).avg_noi = none) ∧
        (comps.filterMap (·.noi) ≠ [] →
          (calculate_comp_stats comps).avg_noi =
            some (avg (comps.filterMap (·.noi))))) ∧
      ((comps.filterMap (·.price) = [] →
          (calculate_comp_stats comps).avg_price = 0) ∧
        (comps.filterMap (·.price) ≠ [] →
          (calculate_comp_stats comps).avg_price =
            avg (comps.filterMap (·.price)))) ∧
      ((comps.filterMap (·.units) = [] →
          (calculate_comp_stats comps).avg_units = 0) ∧
        (comps.filterMap (·.units) ≠ [] →
          (calculate_comp_stats comps).avg_units =
            avgInt (comps.filterMap (·.units)))) ∧
      ((comps.filterMap (·.price_per_unit) = [] →
          (calculate_comp_stats comps).avg_price_per_unit = 0) ∧
        (comps.filterMap (·.price_per_unit) ≠ [] →
          (calculate_comp_stats comps).avg_price_per_unit =
            avg (comps.filterMap (·.price_per_unit)))) ∧
      ((comps.filterMap (·.price_per_sqft) = [] →
          (calculate_comp_stats comps).avg_price_per_sqft = 0) ∧
        (comps.filterMap (·.price_per_sqft) ≠ [] →
          (calculate_comp_stats comps).avg_price_per_sqft =
            avg (comps.filterMap (·.price_per_sqft)))) ∧
      (comps.filterMap (·.unit_rents) = [] →
        (calculate_comp_stats comps).avg_unit_rents = none) ∧
      (((comps.filterMap (·.unit_rents)) ≠ [] →
          ((comps.filterMap (·.unit_rents)).filterMap (·.one_bed) = [] →
            ∃ ur, (calculate_comp_stats comps).avg_unit_rents = some ur ∧
              ur.one_bed = none) ∧
          ((comps.filterMap (·.unit_rents)).filterMap (·.one_bed) ≠ [] →
            ∃ ur, (calculate_comp_stats comps).avg_unit_rents = some ur ∧
              ur.one_bed =
                some (avg ((comps.filterMap (·.unit_rents)).filterMap
                  (·.one_bed))))) ∧
        ((comps.filterMap (·.unit_rents)) ≠ [] →
          ((comps.filterMap (·.unit_rents)).filterMap (·.two_bed) = [] →
            ∃ ur, (calculate_comp_stats comps).avg_unit_rents = some ur ∧
              ur.two_bed = none) ∧
          ((comps.filterMap (·.unit_rents)).filterMap (·.two_bed) ≠ [] →
            ∃ ur, (calculate_comp_stats comps).avg_unit_rents = some ur ∧
              ur.two_bed =
                some (avg ((comps.filterMap (·.unit_rents)).filterMap
                  (·.two_bed))))) ∧
        ((comps.filterMap (·.unit_rents)) ≠ [] →
          ((comps.filterMap (·.unit_rents)).filterMap (·.three_bed) = [] →
            ∃ ur, (calculate_comp_stats comps).avg_unit_rents = some ur ∧
              ur.three_bed = none) ∧
          ((comps.filterMap (·.unit_rents)).filterMap (·.three_bed) ≠ [] →
            ∃ ur, (calculate_comp_stats comps).avg_unit_rents = some ur ∧
              ur.three_bed =
                some (avg ((comps.filterMap (·.unit_rents)).filterMap
                  (·.three_bed))))) ∧
        ((comps.filterMap (·.unit_rents)) ≠ [] →
          ((comps.filterMap (·.unit_rents)).filterMap (·.four_bed) = [] →
            ∃ ur, (calculate_comp_stats comps).avg_unit_rents = some ur ∧
              ur.four_bed = none) ∧
          ((comps.filterMap (·.unit_rents)).filterMap (·.four_bed) ≠ [] →
            ∃ ur, (calculate_comp_stats comps).avg_unit_rents = some ur ∧
              ur.four_bed =
                some (avg ((comps.filterMap (·.unit_rents)).filterMap
                  (·.four_bed)))))) ∧
      ((calculate_comp_stats comps).total_scraped = comps.length ∧
        (calculate_comp_stats comps).filtered_count = comps.length)) ∧
    (calculate_comp_stats [compWithPrice 5, compWithPrice 15]).avg_price
      = 10 := by
  constructor
  · intro comps
    cases comps with
    | nil => simp [calculate_comp_stats]
    | cons c cs =>
      simp only [calculate_comp_stats, statsNonempty]
      exact
        ⟨⟨fun h => by simp [h], fun h => by simp [isEmpty_false_of_ne_nil h]⟩,
        ⟨fun h => by simp [h], fun h => by simp [isEmpty_false_of_ne_nil h]⟩,
        ⟨fun h => by simp [h], fun h => by simp [isEmpty_false_of_ne_nil h]⟩,
        ⟨fun h => by simp [h], fun h => by simp [isEmpty_false_of_ne_nil h]⟩,
        ⟨fun h => by simp [h], fun h => by simp [isEmpty_false_of_ne_nil h]⟩,
        ⟨fun h => by simp [h], fun h => by simp [isEmpty_false_of_ne_nil h]⟩,
        ⟨fun h => by simp [h], fun h => by simp [isEmpty_false_of_ne_nil h]⟩,
        fun h => by simp [h],
        ⟨fun hu =>
          ⟨fun h => by simp [isEmpty_false_of_ne_nil hu, h],
           fun h => by
             simp [isEmpty_false_of_ne_nil hu, isEmpty_false_of_ne_nil h]⟩,
         fun hu =>
          ⟨fun h => by simp [isEmpty_false_of_ne_nil hu, h],
           fun h => by
             simp [isEmpty_false_of_ne_nil hu, isEmpty_false_of_ne_nil h]⟩,
         fun hu =>
          ⟨fun h => by simp [isEmpty_false_of_ne_nil hu, h],
           fun h => by
             simp [isEmpty_false_of_ne_nil hu, isEmpty_false_of_ne_nil h]⟩,
         fun hu =>
          ⟨fun h => by simp [isEmpty_false_of_ne_nil hu, h],
           fun h => by
             simp [isEmpty_false_of_ne_nil hu, isEmpty_false_of_ne_nil h]⟩⟩,
        by trivial, by trivial⟩
  · with_unfolding_all decide

/-- C1 witness: the aggregation contract instantiated on a concrete list whose
cap-rate reporting subset is `[5, 15]`. -/
theorem c1_witness :
    (calculate_comp_stats [compWithCap 5, compWithCap 15]).avg_cap_rate =
      some (avg ([compWithCap 5, compWithCap 15].filterMap (·.cap_rate))) :=
  ((c1_aggregation_contract.1 [compWithCap 5, compWithCap 15]).1).2
    (by decide)

end HuntingParty

namespace HuntingParty

/-! ## Comparison calculator (`calculate_comparisons`)

The deviation comment is the f-string
`f"{'+' if deviation > 0 else ''}{deviation:.1f}% vs CREXi market"`
(and its `pp` / `Realtor` variants).  We model Python strings as `List Char`
and `:.1f` fixed-point formatting as decimal rendering of the deviation
rounded half-to-even at one decimal place. -/

/-- The decimal digit character for `d` (callers pass `d < 10`). -/
def digitChar (d : ℕ) : Char :=
  if d = 0 then '0' else if d = 1 then '1' else if d = 2 then '2'
  else if d = 3 then '3' else if d = 4 then '4' else if d = 5 then '5'
  else if d = 6 then '6' else if d = 7 then '7' else if d = 8 then '8'
  else '9'

/-- Fuel-driven base-10 rendering of a natural number, most significant digit
first.  The entry point `natChars` always supplies enough fuel. -/
def natCharsAux : ℕ → ℕ → List Char
  | 0, _ => []
  | fuel + 1, n =>
    if n < 10 then [digitChar n]
    else natCharsAux fuel (n / 10) ++ [digitChar (n % 10)]

/-- Base-10 rendering of a natural number. -/
def natChars (n : ℕ) : List Char := natCharsAux (n + 1) n

/-- Round to the nearest integer, ties to even (the rounding used by Python's
fixed-point float formatting). -/
def roundHalfEven (q : ℚ) : ℤ :=
  let f := ⌊q⌋
  let r := q - f
  if r < 1 / 2 then f
  else if 1 / 2 < r then f + 1
  else if f % 2 = 0 then f else f + 1

/-- Model of the Python format specifier `:.1f` applied to a deviation:
one digit after the decimal point, `-` sign for negative values. -/
def fmt1 (q : ℚ) : List Char :=
  let n := roundHalfEven (q * 10)
  (if n < 0 then ['-'] else []) ++
    natChars (n.natAbs / 10) ++ ['.'] ++ [digitChar (n.natAbs % 10)]

/-- The `'+' if deviation > 0 else ''` sign marker of the f-string. -/
def plusSign (q : ℚ) : List Char := if q > 0 then ['+'] else []

/-- Comment tail `"% vs CREXi market"`. -/
def sfxCrexiPct : List Char := "% vs CREXi market".toList

/-- Comment tail `"pp vs CREXi market"`. -/
def sfxCrexiPp : List Char := "pp vs CREXi market".toList

/-- Comment tail `"% vs Realtor market"`. -/
def sfxRealtorPct : List Char := "% vs Realtor market".toList

/-- The subject-side metrics dict `om_metrics` assembled in `analyze_om`:
`price_per_unit`, `price_per_sqft` and `cap_rate` from the financials, plus
the unit-rent record. -/
structure OMMetrics where
  price_per_unit : ℚ
  price_per_sqft : ℚ
  cap_rate : ℚ
  unit_rents : UnitRentData
deriving DecidableEq

/-- Common shape of every appended `ComparisonResult`: a metric name, the two
sides, the deviation, and the signed formatted comment. -/
def mkResult (name : String) (s m d : ℚ) (sfx : List Char) :
    ComparisonResult :=
  { metric_name := name
    om_value := some s
    market_value := some m
    deviation_percent := some d
    deviation_comment := plusSign d ++ fmt1 d ++ sfx }

/-- The `ComparisonResult` appended by the price-per-unit branch. -/
def mkPPU (om : OMMetrics) (crexi : CompStats) : ComparisonResult :=
  mkResult "Price per Unit" om.price_per_unit crexi.avg_price_per_unit
    ((om.price_per_unit - crexi.avg_price_per_unit) /
      crexi.avg_price_per_unit * 100) sfxCrexiPct

/-- The `ComparisonResult` appended by the price-per-sqft branch. -/
def mkPPSF (om : OMMetrics) (crexi : CompStats) : ComparisonResult :=
  mkResult "Price per SqFt" om.price_per_sqft crexi.avg_price_per_sqft
    ((om.price_per_sqft - crexi.avg_price_per_sqft) /
      crexi.avg_price_per_sqft * 100) sfxCrexiPct

/-- The `ComparisonResult` appended by the cap-rate branch: a point
difference, not a ratio. -/
def mkCap (om : OMMetrics) (mc : ℚ) : ComparisonResult :=
  mkResult "Cap Rate" om.cap_rate mc (om.cap_rate - mc) sfxCrexiPp

/-- The `ComparisonResult` appended by the 1BR-rent branch. -/
def mkOneBr (s m : ℚ) : ComparisonResult :=
  mkResult "1BR Rent" s m ((s - m) / m * 100) sfxRealtorPct

/-- The `ComparisonResult` appended by the 2BR-rent branch. -/
def mkTwoBr (s m : ℚ) : ComparisonResult :=
  mkResult "2BR Rent" s m ((s - m) / m * 100) sfxRealtorPct

/-- Price-per-unit branch: guarded only by `crexi_stats.avg_price_per_unit > 0`
(the subject side is not consulted). -/
def ppuComparison (om : OMMetrics) (crexi : CompStats) :
    List ComparisonResult :=
  if crexi.avg_price_per_unit > 0 then [mkPPU om crexi] else []

/-- Price-per-sqft branch: guarded only by
`crexi_stats.avg_price_per_sqft > 0`. -/
def ppsfComparison (om : OMMetrics) (crexi : CompStats) :
    List ComparisonResult :=
  if crexi.avg_price_per_sqft > 0 then [mkPPSF om crexi] else []

/-- Cap-rate branch: `if crexi_stats.avg_cap_rate and om_data['cap_rate']` —
Python truthiness: the optional market average must be present and non-zero,
and the subject cap rate non-zero. -/
def capComparison (om : OMMetrics) (crexi : CompStats) :
    List ComparisonResult :=
  match crexi.avg_cap_rate with
  | none => []
  | some mc => if mc ≠ 0 ∧ om.cap_rate ≠ 0 then [mkCap om mc] else []

/-- 1BR branch inside `if realtor_stats.avg_unit_rents:` — both the subject
rent and the market rent must be present and non-zero (truthiness). -/
def oneBrComparison (om : OMMetrics) (ur : UnitRentData) :
    List ComparisonResult :=
  match om.unit_rents.one_bed, ur.one_bed with
  | some s, some m => if s ≠ 0 ∧ m ≠ 0 then [mkOneBr s m] else []
  | _, _ => []

/-- 2BR branch, same shape as the 1BR branch. -/
def twoBrComparison (om : OMMetrics) (ur : UnitRentData) :
    List ComparisonResult :=
  match om.unit_rents.two_bed, ur.two_bed with
  | some s, some m => if s ≠ 0 ∧ m ≠ 0 then [mkTwoBr s m] else []
  | _, _ => []

/-- `calculate_comparisons`: the five branches append in fixed source order;
the two rent branches run only when `realtor_stats.avg_unit_rents` is present
(a present `UnitRentData` instance is always truthy in Python, even with all
fields `None`). -/
def calculate_comparisons (om : OMMetrics) (crexi realtor : CompStats) :
    List ComparisonResult :=
  ppuComparison om crexi ++ ppsfComparison om crexi ++
    capComparison om crexi ++
    (match realtor.avg_unit_rents with
     | none => []
     | some ur => oneBrComparison om ur ++ twoBrComparison om ur)

/-! ## Built-in (mock) data -/

/-- The four-part OM record (the dict produced by `parse_csv_om_data` and
`get_mock_om_data`). -/
structure OMData where
  property_summary : PropertySummary
  unit_rents : UnitRentData
  financials : FinancialMetrics
  vacancy_egi : VacancyEGIData
deriving DecidableEq

/-- `get_mock_om_data`. -/
def get_mock_om_data : OMData :=
  { property_summary :=
      { address := "123 Main St, Tampa, FL"
        opportunity_zone := false
        cap_rate := 5.4
        rentable_sqft := 108750
        avg_sqft_per_unit := 920
        asking_price := 34250000
        lot_size_acres := 1.85
        total_units := 120 }
    unit_rents :=
      { one_bed := some 1650, two_bed := some 2100
        three_bed := some 2450, four_bed := some 2800 }
    financials :=
      { noi := 1890000, cap_rate := 5.4, price_per_sqft := 315
        price_per_unit := 285417, price_per_acre := 18513514 }
    vacancy_egi :=
      { vacancy_rate := 0.06, gross_potential_rent := 2300000
        effective_gross_income := 2162000 } }

/-- `get_mock_crexi_comps`. -/
def get_mock_crexi_comps : List CompProperty :=
  [{ source := "crexi", address := "456 Oak St, Tampa, FL"
     price := some 33500000, units := some 115, cap_rate := some 5.5
     price_per_unit := some 291304, price_per_sqft := some 312
     price_per_acre := some 18200000, noi := some 1842500
     distance_miles := some 0.8 },
   { source := "crexi", address := "789 Pine Ave, Tampa, FL"
     price := some 32000000, units := some 108, cap_rate := some 5.3
     price_per_unit := some 296296, price_per_sqft := some 318
     price_per_acre := some 19000000, noi := some 1696000
     distance_miles := some 1.2 },
   { source := "crexi", address := "321 Elm Dr, Tampa, FL"
     price := some 35500000, units := some 125, cap_rate := some 5.4
     price_per_unit := some 284000, price_per_sqft := some 309
     price_per_acre := some 18800000, noi := some 1917000
     distance_miles := some 0.5 }]

/-- `get_mock_realtor_comps`. -/
def get_mock_realtor_comps : List CompProperty :=
  [{ source := "realtor", address := "654 Maple St, Tampa, FL"
     distance_miles := some 0.9
     unit_rents := some ⟨some 1525, some 1943, some 2263, some 2538⟩ },
   { source := "realtor", address := "987 Cedar Rd, Tampa, FL"
     distance_miles := some 1.1
     unit_rents := some ⟨some 1580, some 1980, some 2320, some 2580⟩ },
   { source := "realtor", address := "147 Birch Ln, Tampa, FL"
     distance_miles := some 0.7
     unit_rents := some ⟨some 1480, some 1920, some 2240, some 2520⟩ }]

/-- The `om_metrics` dict built in `analyze_om` from a parsed or mock OM
record. -/
def omMetricsOf (om : OMData) : OMMetrics :=
  { price_per_unit := om.financials.price_per_unit
    price_per_sqft := om.financials.price_per_sqft
    cap_rate := om.financials.cap_rate
    unit_rents := om.unit_rents }

/-- The subject metrics that `analyze_om` hands to `calculate_comparisons`,
built from the mock OM data. -/
def mockOMMetrics : OMMetrics := omMetricsOf get_mock_om_data

/-- A `CompStats` record with every average zero/absent. -/
def zeroStats : CompStats := ⟨0, 0, 0, 0, none, 0, 0, none, none, none⟩

/-- A `CompStats` record whose only non-trivial field is a negative
price-per-unit average. -/
def statsNegPPU : CompStats := ⟨0, 0, 0, 0, none, -100, 0, none, none, none⟩

/-- A `CompStats` record whose only non-trivial field is
`avg_price_per_unit = 291304` (the spec's worked example market value). -/
def statsPPU291304 : CompStats :=
  ⟨0, 0, 0, 0, none, 291304, 0, none, none, none⟩

/-! ### Formatting lemmas: the comment's first character -/

theorem digitChar_ne_plus (d : ℕ) : digitChar d ≠ '+' := by
  unfold digitChar
  split_ifs <;> decide

theorem natCharsAux_shape :
    ∀ fuel n, ∃ d t, natCharsAux (fuel + 1) n = digitChar d :: t := by
  intro fuel
  induction fuel with
  | zero =>
    intro n
    by_cases h : n < 10
    · exact ⟨n, [], by simp [natCharsAux, h]⟩
    · exact ⟨n % 10, [], by simp [natCharsAux, h]⟩
  | succ f ih =>
    intro n
    by_cases h : n < 10
    · exact ⟨n, [], by simp [natCharsAux, h]⟩
    · obtain ⟨d, t, ht⟩ := ih (n / 10)
      refine ⟨d, t ++ [digitChar (n % 10)], ?_⟩
      conv_lhs => rw [natCharsAux]
      rw [if_neg h, ht]
      rfl

theorem natChars_shape (n : ℕ) : ∃ d t, natChars n = digitChar d :: t :=
  natCharsAux_shape n n

theorem fmt1_head_ne_plus (q : ℚ) (sfx : List Char) :
    ¬((fmt1 q ++ sfx).head? = some '+') := by
  unfold fmt1
  obtain ⟨d, t, ht⟩ := natChars_shape ((roundHalfEven (q * 10)).natAbs / 10)
  by_cases h : roundHalfEven (q * 10) < 0
  · simp [h]
  · simp only [h, if_false, ht, List.nil_append, List.cons_append,
      List.head?_cons, Option.some.injEq]
    exact fun hc => digitChar_ne_plus d hc

theorem comment_head_iff (d : ℚ) (sfx : List Char) :
    ((plusSign d ++ fmt1 d ++ sfx).head? = some '+') ↔ 0 < d := by
  by_cases h : 0 < d
  · simp [plusSign, h]
  · have h' : ¬(d > 0) := h
    simp only [plusSign, h', if_false, List.nil_append, iff_false]
    · exact fun hc => fmt1_head_ne_plus d sfx hc

/-! ### Membership in the comparison output -/

theorem mem_if_singleton {α : Type} {c : Prop} [Decidable c] {x r : α} :
    (r ∈ if c then [x] else []) ↔ c ∧ r = x := by
  by_cases h : c <;> simp [h]

theorem mem_ppuComparison {r : ComparisonResult} {om : OMMetrics}
    {crexi : CompStats} :
    r ∈ ppuComparison om crexi ↔
      0 < crexi.avg_price_per_unit ∧ r = mkPPU om crexi := by
  simp [ppuComparison, mem_if_singleton, gt_iff_lt]

theorem mem_ppsfComparison {r : ComparisonResult} {om : OMMetrics}
    {crexi : CompStats} :
    r ∈ ppsfComparison om crexi ↔
      0 < crexi.avg_price_per_sqft ∧ r = mkPPSF om crexi := by
  simp [ppsfComparison, mem_if_singleton, gt_iff_lt]

theorem mem_capComparison {r : ComparisonResult} {om : OMMetrics}
    {crexi : CompStats} :
    r ∈ capComparison om crexi ↔
      ∃ mc, crexi.avg_cap_rate = some mc ∧ (mc ≠ 0 ∧ om.cap_rate ≠ 0) ∧
        r = mkCap om mc := by
  cases h : crexi.avg_cap_rate with
  | none => simp [capComparison, h]
  | some mc => simp [capComparison, h, mem_if_singleton, and_assoc]

theorem mem_oneBrComparison {r : ComparisonResult} {om : OMMetrics}
    {ur : UnitRentData} :
    r ∈ oneBrComparison om ur ↔
      ∃ s m, om.unit_rents.one_bed = some s ∧ ur.one_bed = some m ∧
        (s ≠ 0 ∧ m ≠ 0) ∧ r = mkOneBr s m := by
  cases ho : om.unit_rents.one_bed with
  | none => simp [oneBrComparison, ho]
  | some s =>
    cases hu : ur.one_bed with
    | none => simp [oneBrComparison, ho, hu]
    | some m => simp [oneBrComparison, ho, hu, mem_if_singleton, and_assoc]

theorem mem_twoBrComparison {r : ComparisonResult} {om : OMMetrics}
    {ur : UnitRentData} :
    r ∈ twoBrComparison om ur ↔
      ∃ s m, om.unit_rents.two_bed = some s ∧ ur.two_bed = some m ∧
        (s ≠ 0 ∧ m ≠ 0) ∧ r = mkTwoBr s m := by
  cases ho : om.unit_rents.two_bed with
  | none => simp [twoBrComparison, ho]
  | some s =>
    cases hu : ur.two_bed with
    | none => simp [twoBrComparison, ho, hu]
    | some m => simp [twoBrComparison, ho, hu, mem_if_singleton, and_assoc]

theorem mem_calculate_comparisons {r : ComparisonResult} {om : OMMetrics}
    {crexi realtor : CompStats} :
    r ∈ calculate_comparisons om crexi realtor ↔
      (0 < crexi.avg_price_per_unit ∧ r = mkPPU om crexi) ∨
      (0 < crexi.avg_price_per_sqft ∧ r = mkPPSF om crexi) ∨
      (∃ mc, crexi.avg_cap_rate = some mc ∧ (mc ≠ 0 ∧ om.cap_rate ≠ 0) ∧
        r = mkCap om mc) ∨
      (∃ ur, realtor.avg_unit_rents = some ur ∧
        (r ∈ oneBrComparison om ur ∨ r ∈ twoBrComparison om ur)) := by
  cases h : realtor.avg_unit_rents with
  | none =>
    simp [calculate_comparisons, h, mem_ppuComparison, mem_ppsfComparison,
      mem_capComparison]
  | some ur =>
    simp [calculate_comparisons, h, mem_ppuComparison, mem_ppsfComparison,
      mem_capComparison]

end HuntingParty

namespace HuntingParty

/-! ### Projection lemmas for the appended results -/

theorem mkResult_metric_name (name : String) (s m d : ℚ) (sfx : List Char) :
    (mkResult name s m d sfx).metric_name = name := rfl

theorem mkResult_om_value (name : String) (s m d : ℚ) (sfx : List Char) :
    (mkResult name s m d sfx).om_value = some s := rfl

theorem mkResult_market_value (name : String) (s m d : ℚ) (sfx : List Char) :
    (mkResult name s m d sfx).market_value = some m := rfl

theorem mkResult_deviation (name : String) (s m d : ℚ) (sfx : List Char) :
    (mkResult name s m d sfx).deviation_percent = some d := rfl

theorem mkPPU_name (om : OMMetrics) (crexi : CompStats) :
    (mkPPU om crexi).metric_name = "Price per Unit" := rfl

theorem mkPPSF_name (om : OMMetrics) (crexi : CompStats) :
    (mkPPSF om crexi).metric_name = "Price per SqFt" := rfl

theorem mkCap_name (om : OMMetrics) (mc : ℚ) :
    (mkCap om mc).metric_name = "Cap Rate" := rfl

theorem mkOneBr_name (s m : ℚ) :
    (mkOneBr s m).metric_name = "1BR Rent" := rfl

theorem mkTwoBr_name (s m : ℚ) :
    (mkTwoBr s m).metric_name = "2BR Rent" := rfl

/-- The sign-marker clause for any appended result: its comment starts with
`'+'` exactly when its deviation is positive. -/
theorem mkResult_comment_clause (name : String) (s m d : ℚ)
    (sfx : List Char) :
    ∀ x, (mkResult name s m d sfx).deviation_percent = some x →
      (((mkResult name s m d sfx).deviation_comment.head? = some '+') ↔
        0 < x) := by
  intro x hx
  rw [mkResult_deviation, Option.some.injEq] at hx
  subst hx
  simp only [mkResult]
  exact comment_head_iff d sfx

/-! ### Sublist block lemmas for the fixed metric order -/

theorem ppu_block (om : OMMetrics) (crexi : CompStats) :
    List.Sublist
      ((ppuComparison om crexi).map (fun r => r.metric_name))
      ["Price per Unit"] := by
  unfold ppuComparison
  by_cases h : crexi.avg_price_per_unit > 0
  · rw [if_pos h]
    exact List.Sublist.refl _
  · rw [if_neg h]
    exact List.nil_sublist _

theorem ppsf_block (om : OMMetrics) (crexi : CompStats) :
    List.Sublist
      ((ppsfComparison om crexi).map (fun r => r.metric_name))
      ["Price per SqFt"] := by
  unfold ppsfComparison
  by_cases h : crexi.avg_price_per_sqft > 0
  · rw [if_pos h]
    exact List.Sublist.refl _
  · rw [if_neg h]
    exact List.nil_sublist _

theorem cap_block (om : OMMetrics) (crexi : CompStats) :
    List.Sublist
      ((capComparison om crexi).map (fun r => r.metric_name))
      ["Cap Rate"] := by
  cases h : crexi.avg_cap_rate with
  | none =>
    simp only [capComparison, h]
    exact List.nil_sublist _
  | some mc =>
    simp only [capComparison, h]
    by_cases hc : mc ≠ 0 ∧ om.cap_rate ≠ 0
    · rw [if_pos hc]
      exact List.Sublist.refl _
    · rw [if_neg hc]
      exact List.nil_sublist _

theorem oneBr_block (om : OMMetrics) (ur : UnitRentData) :
    List.Sublist
      ((oneBrComparison om ur).map (fun r => r.metric_name))
      ["1BR Rent"] := by
  cases ho : om.unit_rents.one_bed with
  | none =>
    simp only [oneBrComparison, ho]
    exact List.nil_sublist _
  | some s =>
    cases hu : ur.one_bed with
    | none =>
      simp only [oneBrComparison, ho, hu]
      exact List.nil_sublist _
    | some m =>
      simp only [oneBrComparison, ho, hu]
      by_cases hc : s ≠ 0 ∧ m ≠ 0
      · rw [if_pos hc]
        exact List.Sublist.refl _
      · rw [if_neg hc]
        exact List.nil_sublist _

theorem twoBr_block (om : OMMetrics) (ur : UnitRentData) :
    List.Sublist
      ((twoBrComparison om ur).map (fun r => r.metric_name))
      ["2BR Rent"] := by
  cases ho : om.unit_rents.two_bed with
  | none =>
    simp only [twoBrComparison, ho]
    exact List.nil_sublist _
  | some s =>
    cases hu : ur.two_bed with
    | none =>
      simp only [twoBrComparison, ho, hu]
      exact List.nil_sublist _
    | some m =>
      simp only [twoBrComparison, ho, hu]
      by_cases hc : s ≠ 0 ∧ m ≠ 0
      · rw [if_pos hc]
        exact List.Sublist.refl _
      · rw [if_neg hc]
        exact List.nil_sublist _

/-! ## Claim theorems about the comparison calculator -/

set_option maxRecDepth 8000 in
/-- C3 counterexample: the subject's price-per-unit (`285417`) and the market
average (`-100`) are both present, and the market average is non-zero, yet no
`ComparisonResult` at all is emitted — the claim's "if and only if both
present and market non-zero" fails (the code tests `> 0`, not `≠ 0`). -/
theorem c3_counterexample :
    calculate_comparisons mockOMMetrics statsNegPPU zeroStats = [] ∧
    mockOMMetrics.price_per_unit = 285417 ∧
    statsNegPPU.avg_price_per_unit = -100 ∧ ((-100 : ℚ) ≠ 0) := by
  refine ⟨?_, rfl, rfl, by norm_num⟩
  with_unfolding_all decide

/-- C3 (amended): per-metric emission guards.  Price-per-unit and
price-per-sqft comparisons are emitted iff the market average is strictly
positive (the subject side is never consulted); the cap-rate comparison iff
the market average is present and non-zero and the subject cap rate non-zero;
each rent comparison iff the rent sub-aggregate exists and both the subject
rent and the market rent are present and non-zero.  Nothing else is emitted,
and no input raises an error (the function is total). -/
theorem c3_emission_guards (om : OMMetrics) (crexi realtor : CompStats) :
    ((∃ r ∈ calculate_comparisons om crexi realtor,
        r.metric_name = "Price per Unit") ↔
      0 < crexi.avg_price_per_unit) ∧
    ((∃ r ∈ calculate_comparisons om crexi realtor,
        r.metric_name = "Price per SqFt") ↔
      0 < crexi.avg_price_per_sqft) ∧
    ((∃ r ∈ calculate_comparisons om crexi realtor,
        r.metric_name = "Cap Rate") ↔
      ∃ mc, crexi.avg_cap_rate = some mc ∧ mc ≠ 0 ∧ om.cap_rate ≠ 0) ∧
    ((∃ r ∈ calculate_comparisons om crexi realtor,
        r.metric_name = "1BR Rent") ↔
      ∃ ur s m, realtor.avg_unit_rents = some ur ∧
        om.unit_rents.one_bed = some s ∧ ur.one_bed = some m ∧
        s ≠ 0 ∧ m ≠ 0) ∧
    ((∃ r ∈ calculate_comparisons om crexi realtor,
        r.metric_name = "2BR Rent") ↔
      ∃ ur s m, realtor.avg_unit_rents = some ur ∧
        om.unit_rents.two_bed = some s ∧ ur.two_bed = some m ∧
        s ≠ 0 ∧ m ≠ 0) := by
  refine ⟨⟨?_, ?_⟩, ⟨?_, ?_⟩, ⟨?_, ?_⟩, ⟨?_, ?_⟩, ⟨?_, ?_⟩⟩
  · rintro ⟨r, hr, hname⟩
    rw [mem_calculate_comparisons] at hr
    rcases hr with ⟨h, rfl⟩ | ⟨h, rfl⟩ | ⟨mc, hmc, hcond, rfl⟩ |
      ⟨ur, hur, h1 | h1⟩
    · exact h
    · exact absurd ((mkPPSF_name om crexi).symm.trans hname) (by decide)
    · exact absurd ((mkCap_name om mc).symm.trans hname) (by decide)
    · rw [mem_oneBrComparison] at h1
      obtain ⟨s, m, hs, hm, h0, rfl⟩ := h1
      exact absurd ((mkOneBr_name s m).symm.trans hname) (by decide)
    · rw [mem_twoBrComparison] at h1
      obtain ⟨s, m, hs, hm, h0, rfl⟩ := h1
      exact absurd ((mkTwoBr_name s m).symm.trans hname) (by decide)
  · intro h
    exact ⟨mkPPU om crexi,
      mem_calculate_comparisons.mpr (Or.inl ⟨h, rfl⟩), rfl⟩
  · rintro ⟨r, hr, hname⟩
    rw [mem_calculate_comparisons] at hr
    rcases hr with ⟨h, rfl⟩ | ⟨h, rfl⟩ | ⟨mc, hmc, hcond, rfl⟩ |
      ⟨ur, hur, h1 | h1⟩
    · exact absurd ((mkPPU_name om crexi).symm.trans hname) (by decide)
    · exact h
    · exact absurd ((mkCap_name om mc).symm.trans hname) (by decide)
    · rw [mem_oneBrComparison] at h1
      obtain ⟨s, m, hs, hm, h0, rfl⟩ := h1
      exact absurd ((mkOneBr_name s m).symm.trans hname) (by decide)
    · rw [mem_twoBrComparison] at h1
      obtain ⟨s, m, hs, hm, h0, rfl⟩ := h1
      exact absurd ((mkTwoBr_name s m).symm.trans hname) (by decide)
  · intro h
    exact ⟨mkPPSF om crexi,
      mem_calculate_comparisons.mpr (Or.inr (Or.inl ⟨h, rfl⟩)), rfl⟩
  · rintro ⟨r, hr, hname⟩
    rw [mem_calculate_comparisons] at hr
    rcases hr with ⟨h, rfl⟩ | ⟨h, rfl⟩ | ⟨mc, hmc, hcond, rfl⟩ |
      ⟨ur, hur, h1 | h1⟩
    · exact absurd ((mkPPU_name om crexi).symm.trans hname) (by decide)
    · exact absurd ((mkPPSF_name om crexi).symm.trans hname) (by decide)
    · exact ⟨mc, hmc, hcond.1, hcond.2⟩
    · rw [mem_oneBrComparison] at h1
      obtain ⟨s, m, hs, hm, h0, rfl⟩ := h1
      exact absurd ((mkOneBr_name s m).symm.trans hname) (by decide)
    · rw [mem_twoBrComparison] at h1
      obtain ⟨s, m, hs, hm, h0, rfl⟩ := h1
      exact absurd ((mkTwoBr_name s m).symm.trans hname) (by decide)
  · rintro ⟨mc, hmc, h0, hc⟩
    exact ⟨mkCap om mc,
      mem_calculate_comparisons.mpr
        (Or.inr (Or.inr (Or.inl ⟨mc, hmc, ⟨h0, hc⟩, rfl⟩))), rfl⟩
  · rintro ⟨r, hr, hname⟩
    rw [mem_calculate_comparisons] at hr
    rcases hr with ⟨h, rfl⟩ | ⟨h, rfl⟩ | ⟨mc, hmc, hcond, rfl⟩ |
      ⟨ur, hur, h1 | h1⟩
    · exact absurd ((mkPPU_name om crexi).symm.trans hname) (by decide)
    · exact absurd ((mkPPSF_name om crexi).symm.trans hname) (by decide)
    · exact absurd ((mkCap_name om mc).symm.trans hname) (by decide)
    · rw [mem_oneBrComparison] at h1
      obtain ⟨s, m, hs, hm, h0, rfl⟩ := h1
      exact ⟨ur, s, m, hur, hs, hm, h0.1, h0.2⟩
    · rw [mem_twoBrComparison] at h1
      obtain ⟨s, m, hs, hm, h0, rfl⟩ := h1
      exact absurd ((mkTwoBr_name s m).symm.trans hname) (by decide)
  · rintro ⟨ur, s, m, hur, hs, hm, hs0, hm0⟩
    refine ⟨mkOneBr s m,
      mem_calculate_comparisons.mpr
        (Or.inr (Or.inr (Or.inr ⟨ur, hur, Or.inl ?_⟩))), rfl⟩
    rw [mem_oneBrComparison]
    exact ⟨s, m, hs, hm, ⟨hs0, hm0⟩, rfl⟩
  · rintro ⟨r, hr, hname⟩
    rw [mem_calculate_comparisons] at hr
    rcases hr with ⟨h, rfl⟩ | ⟨h, rfl⟩ | ⟨mc, hmc, hcond, rfl⟩ |
      ⟨ur, hur, h1 | h1⟩
    · exact absurd ((mkPPU_name om crexi).symm.trans hname) (by decide)
    · exact absurd ((mkPPSF_name om crexi).symm.trans hname) (by decide)
    · exact absurd ((mkCap_name om mc).symm.trans hname) (by decide)
    · rw [mem_oneBrComparison] at h1
      obtain ⟨s, m, hs, hm, h0, rfl⟩ := h1
      exact absurd ((mkOneBr_name s m).symm.trans hname) (by decide)
    · rw [mem_twoBrComparison] at h1
      obtain ⟨s, m, hs, hm, h0, rfl⟩ := h1
      exact ⟨ur, s, m, hur, hs, hm, h0.1, h0.2⟩
  · rintro ⟨ur, s, m, hur, hs, hm, hs0, hm0⟩
    refine ⟨mkTwoBr s m,
      mem_calculate_comparisons.mpr
        (Or.inr (Or.inr (Or.inr ⟨ur, hur, Or.inr ?_⟩))), rfl⟩
    rw [mem_twoBrComparison]
    exact ⟨s, m, hs, hm, ⟨hs0, hm0⟩, rfl⟩

end HuntingParty

namespace HuntingParty

/-- On the worked example (subject metrics from the built-in OM, market stats
whose only set average is `avg_price_per_unit = 291304`), exactly the
price-per-unit comparison is emitted. -/
theorem comparisons_worked_example :
    calculate_comparisons mockOMMetrics statsPPU291304 zeroStats =
      [mkPPU mockOMMetrics statsPPU291304] := by
  unfold calculate_comparisons ppuComparison ppsfComparison capComparison
  norm_num [statsPPU291304, zeroStats]

/-- The deviation of the worked-example price-per-unit comparison is exactly
`-588700/291304`. -/
theorem ppu_worked_example_dev :
    (mkPPU mockOMMetrics statsPPU291304).deviation_percent =
      some (-588700 / 291304) := by
  rw [mkPPU, mkResult_deviation]
  norm_num [mockOMMetrics, omMetricsOf, get_mock_om_data, statsPPU291304]

/-- The deviations emitted on the worked example, as a list. -/
theorem ppu_worked_example_map :
    (calculate_comparisons mockOMMetrics statsPPU291304 zeroStats).map
      (fun r => r.deviation_percent) = [some (-588700 / 291304)] := by
  rw [comparisons_worked_example]
  simp only [List.map_cons, List.map_nil]
  rw [ppu_worked_example_dev]

/-- C4 counterexample: at the spec's worked example (subject `285417`, market
`291304`, price-per-unit), the code's deviation is exactly
`-588700/291304 ≈ -2.02`, which is below `-2` and hence not approximately
`-1.96` as the claim states. -/
theorem c4_counterexample :
    (calculate_comparisons mockOMMetrics statsPPU291304 zeroStats).map
        (fun r => r.deviation_percent) = [some (-588700 / 291304)] ∧
    mockOMMetrics.price_per_unit = 285417 ∧
    statsPPU291304.avg_price_per_unit = 291304 ∧
    ((-588700 / 291304 : ℚ) < -2 ∧ (-2 : ℚ) < -196 / 100) :=
  ⟨ppu_worked_example_map, rfl, rfl, by norm_num⟩

/-- C4 (amended): every emitted result's deviation follows its metric class —
`(subject - market) / market * 100` for the ratio metrics and
`subject - market` for the cap rate — and its comment carries a `'+'` prefix
exactly when the deviation is positive; the worked example subject `285417`
vs market `291304` yields exactly `-588700/291304`, approximately `-2.02`. -/
theorem c4_deviation_formulas (om : OMMetrics) (crexi realtor : CompStats) :
    (∀ r ∈ calculate_comparisons om crexi realtor,
      (∀ sv mv, r.om_value = some sv → r.market_value = some mv →
        (r.metric_name ≠ "Cap Rate" →
          r.deviation_percent = some ((sv - mv) / mv * 100)) ∧
        (r.metric_name = "Cap Rate" →
          r.deviation_percent = some (sv - mv))) ∧
      (∀ d, r.deviation_percent = some d →
        ((r.deviation_comment.head? = some '+') ↔ 0 < d))) ∧
    ((calculate_comparisons mockOMMetrics statsPPU291304 zeroStats).map
        (fun r => r.deviation_percent) = [some (-588700 / 291304)] ∧
      ((-203 : ℚ) / 100 < -588700 / 291304 ∧
        (-588700 / 291304 : ℚ) < -202 / 100)) := by
  refine ⟨?_, ppu_worked_example_map, by norm_num⟩
  intro r hr
  rw [mem_calculate_comparisons] at hr
  rcases hr with ⟨h, rfl⟩ | ⟨h, rfl⟩ | ⟨mc, hmc, hcond, rfl⟩ |
    ⟨ur, hur, h1 | h1⟩
  · constructor
    · intro sv mv hs hm
      rw [mkPPU, mkResult_om_value, Option.some.injEq] at hs
      rw [mkPPU, mkResult_market_value, Option.some.injEq] at hm
      subst hs; subst hm
      refine ⟨fun _ => ?_, fun hc =>
        absurd ((mkPPU_name om crexi).symm.trans hc) (by decide)⟩
      rw [mkPPU, mkResult_deviation]
    · intro d hd
      rw [mkPPU] at hd ⊢
      exact mkResult_comment_clause _ _ _ _ _ d hd
  · constructor
    · intro sv mv hs hm
      rw [mkPPSF, mkResult_om_value, Option.some.injEq] at hs
      rw [mkPPSF, mkResult_market_value, Option.some.injEq] at hm
      subst hs; subst hm
      refine ⟨fun _ => ?_, fun hc =>
        absurd ((mkPPSF_name om crexi).symm.trans hc) (by decide)⟩
      rw [mkPPSF, mkResult_deviation]
    · intro d hd
      rw [mkPPSF] at hd ⊢
      exact mkResult_comment_clause _ _ _ _ _ d hd
  · constructor
    · intro sv mv hs hm
      rw [mkCap, mkResult_om_value, Option.some.injEq] at hs
      rw [mkCap, mkResult_market_value, Option.some.injEq] at hm
      subst hs; subst hm
      refine ⟨fun hnc => absurd (mkCap_name om mc) hnc, fun _ => ?_⟩
      rw [mkCap, mkResult_deviation]
    · intro d hd
      rw [mkCap] at hd ⊢
      exact mkResult_comment_clause _ _ _ _ _ d hd
  · rw [mem_oneBrComparison] at h1
    obtain ⟨s, m, hsb, hmb, h0, rfl⟩ := h1
    constructor
    · intro sv mv hs hm
      rw [mkOneBr, mkResult_om_value, Option.some.injEq] at hs
      rw [mkOneBr, mkResult_market_value, Option.some.injEq] at hm
      subst hs; subst hm
      refine ⟨fun _ => ?_, fun hc =>
        absurd ((mkOneBr_name s m).symm.trans hc) (by decide)⟩
      rw [mkOneBr, mkResult_deviation]
    · intro d hd
      rw [mkOneBr] at hd ⊢
      exact mkResult_comment_clause _ _ _ _ _ d hd
  · rw [mem_twoBrComparison] at h1
    obtain ⟨s, m, hsb, hmb, h0, rfl⟩ := h1
    constructor
    · intro sv mv hs hm
      rw [mkTwoBr, mkResult_om_value, Option.some.injEq] at hs
      rw [mkTwoBr, mkResult_market_value, Option.some.injEq] at hm
      subst hs; subst hm
      refine ⟨fun _ => ?_, fun hc =>
        absurd ((mkTwoBr_name s m).symm.trans hc) (by decide)⟩
      rw [mkTwoBr, mkResult_deviation]
    · intro d hd
      rw [mkTwoBr] at hd ⊢
      exact mkResult_comment_clause _ _ _ _ _ d hd

/-- C4 witness: the deviation-formula theorem applied to the concrete
price-per-unit result for subject `285417` vs market `291304`; its comment
starts with `'+'` iff its (negative) deviation is positive. -/
theorem c4_witness :
    ((mkPPU mockOMMetrics statsPPU291304).deviation_comment.head? =
        some '+') ↔ 0 < (-588700 / 291304 : ℚ) :=
  ((c4_deviation_formulas mockOMMetrics statsPPU291304 zeroStats).1
      (mkPPU mockOMMetrics statsPPU291304)
      (by rw [comparisons_worked_example]; exact List.mem_singleton_self _)).2
    (-588700 / 291304) ppu_worked_example_dev

end HuntingParty

namespace HuntingParty

/-- C5: for every input the list of emitted metric names is an ordered
subsequence of the five fixed metrics (so 3BR/4BR comparisons are never
computed and the output is never reordered), and on the built-in data all
five appear, in the fixed evaluation order. -/
theorem c5_fixed_metric_order :
    (∀ (om : OMMetrics) (crexi realtor : CompStats),
      List.Sublist
        ((calculate_comparisons om crexi realtor).map
          (fun r => r.metric_name))
        ["Price per Unit", "Price per SqFt", "Cap Rate", "1BR Rent",
          "2BR Rent"]) ∧
    (calculate_comparisons mockOMMetrics
        (calculate_comp_stats get_mock_crexi_comps)
        (calculate_comp_stats get_mock_realtor_comps)).map
      (fun r => r.metric_name) =
      ["Price per Unit", "Price per SqFt", "Cap Rate", "1BR Rent",
        "2BR Rent"] := by
  constructor
  · intro om crexi realtor
    unfold calculate_comparisons
    rw [List.map_append, List.map_append, List.map_append]
    have hsplit :
        (["Price per Unit", "Price per SqFt", "Cap Rate", "1BR Rent",
          "2BR Rent"] : List String) =
        ["Price per Unit"] ++ ["Price per SqFt"] ++ ["Cap Rate"] ++
          ["1BR Rent", "2BR Rent"] := rfl
    rw [hsplit]
    refine List.Sublist.append
      (List.Sublist.append
        (List.Sublist.append (ppu_block om crexi) (ppsf_block om crexi))
        (cap_block om crexi)) ?_
    cases realtor.avg_unit_rents with
    | none => exact List.nil_sublist _
    | some ur =>
      rw [List.map_append]
      exact List.Sublist.append (oneBr_block om ur) (twoBr_block om ur)
  · have hppuv :
        (calculate_comp_stats get_mock_crexi_comps).avg_price_per_unit =
          avg [291304, 296296, 284000] := rfl
    have hppu :
        (calculate_comp_stats get_mock_crexi_comps).avg_price_per_unit
          > 0 := by
      rw [hppuv]
      norm_num [avg, List.sum_cons, List.sum_nil]
    have hppsfv :
        (calculate_comp_stats get_mock_crexi_comps).avg_price_per_sqft =
          avg [312, 318, 309] := rfl
    have hppsf :
        (calculate_comp_stats get_mock_crexi_comps).avg_price_per_sqft
          > 0 := by
      rw [hppsfv]
      norm_num [avg, List.sum_cons, List.sum_nil]
    have hcapv :
        (calculate_comp_stats get_mock_crexi_comps).avg_cap_rate =
          some (avg [5.5, 5.3, 5.4]) := rfl
    have hcap :
        (calculate_comp_stats get_mock_crexi_comps).avg_cap_rate =
          some (27 / 5) := by
      rw [hcapv]
      norm_num [avg, List.sum_cons, List.sum_nil]
    have hurv :
        (calculate_comp_stats get_mock_realtor_comps).avg_unit_rents =
          some ⟨some (avg [1525, 1580, 1480]), some (avg [1943, 1980, 1920]),
            some (avg [2263, 2320, 2240]), some (avg [2538, 2580, 2520])⟩ :=
      rfl
    have hur :
        (calculate_comp_stats get_mock_realtor_comps).avg_unit_rents =
          some ⟨some (4585 / 3), some (5843 / 3), some (6823 / 3),
            some (7638 / 3)⟩ := by
      rw [hurv]
      norm_num [avg, List.sum_cons, List.sum_nil]
    unfold calculate_comparisons ppuComparison ppsfComparison capComparison
    rw [if_pos hppu, if_pos hppsf, hcap, hur]
    norm_num [oneBrComparison, twoBrComparison, mockOMMetrics, omMetricsOf,
      get_mock_om_data, mkPPU_name, mkPPSF_name, mkCap_name, mkOneBr_name,
      mkTwoBr_name, List.map_append]

end HuntingParty

namespace HuntingParty

/-! ## Input normalizer (`parse_csv_om_data`) and the analyze endpoint

The CSV library itself is an external collaborator (spec §1): we model its
output, a parsed first row, as an association list of column name to cell
text; a missing column is an absent key.  `parse_csv_om_data` is modelled at
that level.  Python raises on the first failing `float(...)` conversion and
the surrounding `try` turns any exception into `HTTPException(400, ...)`;
equivalently, the parse succeeds iff every conversion succeeds, returning the
record of converted values. -/

/-- A parsed CSV row: column name to cell text. -/
def Row : Type := List (String × String)

/-- `row.get(key)`: the cell under a column, `none` when the column is
absent. -/
def rowGet (row : Row) (key : String) : Option String :=
  (List.find? (fun p => p.1 = key) row).map (fun p => p.2)

/-- Model of Python `float(s)` on the plain decimal literals the rows carry:
optional sign, digits, optional single decimal point; anything else fails. -/
def floatOfString (s : String) : Option ℚ :=
  let cs := s.toList
  let sgn : ℚ := match cs with
    | '-' :: _ => -1
    | _ => 1
  let rest : List Char := match cs with
    | '-' :: t => t
    | '+' :: t => t
    | t => t
  let ip := rest.takeWhile (fun c => c ≠ '.')
  let tail := rest.dropWhile (fun c => c ≠ '.')
  let fp : Option (List Char) := match tail with
    | [] => some []
    | '.' :: t => if t.contains '.' then none else some t
    | _ => none
  match fp with
  | none => none
  | some f =>
    if ip.isEmpty && f.isEmpty then none
    else if ip.all (fun c => c.isDigit) && f.all (fun c => c.isDigit) then
      some (sgn *
        ((((ip ++ f).foldl (fun acc c => 10 * acc + (c.toNat - 48)) 0 : ℕ)
            : ℚ) / (10 ^ f.length : ℚ)))
    else none

/-- Python `int(x)` on a float: truncation toward zero. -/
def truncQ (q : ℚ) : ℤ := if 0 ≤ q then ⌊q⌋ else -(⌊-q⌋)

/-- `float(row.get(key, 0))`: a missing column falls back to the number `0`;
a present cell is converted (and may fail). -/
def getFloat (row : Row) (key : String) : Option ℚ :=
  match rowGet row key with
  | none => some 0
  | some s => floatOfString s

/-- `float(row.get(key, 0)) if row.get(key) else None`: a missing column or
empty (falsy) cell yields `None`; a present non-empty cell is converted (and
may fail — the outer `Option` is the failure). -/
def getRent (row : Row) (key : String) : Option (Option ℚ) :=
  match rowGet row key with
  | none => some none
  | some s => if s = "" then some none else (floatOfString s).map some

/-- The parse succeeds iff every numeric conversion succeeds. -/
def allFieldsOK (row : Row) : Bool :=
  (getFloat row "cap_rate").isSome &&
  (getFloat row "rentable_sqft").isSome &&
  (getFloat row "avg_sqft_per_unit").isSome &&
  (getFloat row "asking_price").isSome &&
  (getFloat row "lot_size_acres").isSome &&
  (getFloat row "total_units").isSome &&
  (getRent row "one_bed_rent").isSome &&
  (getRent row "two_bed_rent").isSome &&
  (getRent row "three_bed_rent").isSome &&
  (getRent row "four_bed_rent").isSome &&
  (getFloat row "noi").isSome &&
  (getFloat row "price_per_sqft").isSome &&
  (getFloat row "price_per_unit").isSome &&
  (getFloat row "price_per_acre").isSome &&
  (getFloat row "vacancy_rate").isSome &&
  (getFloat row "gross_potential_rent").isSome

/-- The OM record assembled from a row's converted values (`effective gross
income` is derived, never read from the row). -/
def mkOMData (row : Row) : OMData :=
  let vr := (getFloat row "vacancy_rate").getD 0
  let gpr := (getFloat row "gross_potential_rent").getD 0
  { property_summary :=
      { address := (rowGet row "address").getD ""
        opportunity_zone :=
          ((rowGet row "opportunity_zone").getD "").toLower == "yes"
        cap_rate := (getFloat row "cap_rate").getD 0
        rentable_sqft := truncQ ((getFloat row "rentable_sqft").getD 0)
        avg_sqft_per_unit := (getFloat row "avg_sqft_per_unit").getD 0
        asking_price := (getFloat row "asking_price").getD 0
        lot_size_acres := (getFloat row "lot_size_acres").getD 0
        total_units := truncQ ((getFloat row "total_units").getD 0) }
    unit_rents :=
      { one_bed := (getRent row "one_bed_rent").getD none
        two_bed := (getRent row "two_bed_rent").getD none
        three_bed := (getRent row "three_bed_rent").getD none
        four_bed := (getRent row "four_bed_rent").getD none }
    financials :=
      { noi := (getFloat row "noi").getD 0
        cap_rate := (getFloat row "cap_rate").getD 0
        price_per_sqft := (getFloat row "price_per_sqft").getD 0
        price_per_unit := (getFloat row "price_per_unit").getD 0
        price_per_acre := (getFloat row "price_per_acre").getD 0 }
    vacancy_egi :=
      { vacancy_rate := vr
        gross_potential_rent := gpr
        effective_gross_income := gpr * (1 - vr) } }

/-- An HTTPException: status code and detail text. -/
structure HTTPError where
  status : ℕ
  detail : String
deriving DecidableEq

/-- `str(HTTPException)`: `f"{status_code}: {detail}"`. -/
def httpExcStr (e : HTTPError) : String :=
  Nat.repr e.status ++ ": " ++ e.detail

/-- `parse_csv_om_data`: no first row (`next(reader)` raises) or a failing
conversion raises, and the function's own handler wraps any exception in
`HTTPException(status_code=400, detail=f"Error parsing CSV: ...")`. -/
def parse_csv_om_data : List Row → Except HTTPError OMData
  | [] => Except.error ⟨400, "Error parsing CSV: "⟩
  | row :: _ =>
    if allFieldsOK row then Except.ok (mkOMData row)
    else Except.error
      ⟨400, "Error parsing CSV: could not convert string to float"⟩

/-- The `AnalysisResponse` payload (dict conversion elided: the model keeps
the structures). -/
structure AnalysisResponse where
  property_summary : PropertySummary
  unit_rents : UnitRentData
  financials : FinancialMetrics
  vacancy_egi : VacancyEGIData
  crexi_comps : CompStats
  realtor_comps : CompStats
  comparisons : List ComparisonResult
  raw_crexi_comps : List CompProperty
  raw_realtor_comps : List CompProperty
deriving DecidableEq

/-- `analyze_om`: parse the upload (or take the mock record), fall back to the
mock comparables when the external store returned nothing (the store itself is
an external collaborator, modelled by the two lists it returned), filter,
aggregate, compare, respond.  The whole body sits in a `try` whose
`except Exception` re-raises *any* exception — including the parser's
`HTTPException(400, ...)` — as `HTTPException(500, "Analysis failed: ...")`
with the stringified original exception. -/
def analyze_om (csvRows : Option (List Row)) (filters : CompFilterRequest)
    (storeCrexi storeRealtor : List CompProperty) :
    Except HTTPError AnalysisResponse :=
  let run : Except HTTPError AnalysisResponse :=
    match (match csvRows with
           | some rows => parse_csv_om_data rows
           | none => Except.ok get_mock_om_data) with
    | Except.error e => Except.error e
    | Except.ok om =>
      let crexi0 := if storeCrexi.isEmpty then get_mock_crexi_comps
        else storeCrexi
      let realtor0 := if storeRealtor.isEmpty then get_mock_realtor_comps
        else storeRealtor
      let crexi := apply_filters crexi0 filters
      let realtor := apply_filters realtor0 filters
      let cs := calculate_comp_stats crexi
      let rs := calculate_comp_stats realtor
      Except.ok
        { property_summary := om.property_summary
          unit_rents := om.unit_rents
          financials := om.financials
          vacancy_egi := om.vacancy_egi
          crexi_comps := cs
          realtor_comps := rs
          comparisons := calculate_comparisons (omMetricsOf om) cs rs
          raw_crexi_comps := crexi
          raw_realtor_comps := realtor }
  match run with
  | Except.ok r => Except.ok r
  | Except.error e =>
    Except.error ⟨500, "Analysis failed: " ++ httpExcStr e⟩

/-- The documented example row from the `/csv-template` endpoint. -/
def exampleRow : Row :=
  [("address", "123 Main St, Tampa, FL"), ("opportunity_zone", "No"),
   ("cap_rate", "5.4"), ("rentable_sqft", "108750"),
   ("avg_sqft_per_unit", "920"), ("asking_price", "34250000"),
   ("lot_size_acres", "1.85"), ("total_units", "120"),
   ("one_bed_rent", "1650"), ("two_bed_rent", "2100"),
   ("three_bed_rent", "2450"), ("four_bed_rent", "2800"),
   ("noi", "1890000"), ("price_per_sqft", "315"),
   ("price_per_unit", "285417"), ("price_per_acre", "18513514"),
   ("vacancy_rate", "0.06"), ("gross_potential_rent", "2300000")]

/-- The example row with the `one_bed_rent` column removed. -/
def rowNoOneBed : Row :=
  [("address", "123 Main St, Tampa, FL"), ("opportunity_zone", "No"),
   ("cap_rate", "5.4"), ("rentable_sqft", "108750"),
   ("avg_sqft_per_unit", "920"), ("asking_price", "34250000"),
   ("lot_size_acres", "1.85"), ("total_units", "120"),
   ("two_bed_rent", "2100"),
   ("three_bed_rent", "2450"), ("four_bed_rent", "2800"),
   ("noi", "1890000"), ("price_per_sqft", "315"),
   ("price_per_unit", "285417"), ("price_per_acre", "18513514"),
   ("vacancy_rate", "0.06"), ("gross_potential_rent", "2300000")]

/-- A row whose `cap_rate` cell cannot be converted to a float. -/
def badRow : Row := [("cap_rate", "abc")]

end HuntingParty

namespace HuntingParty

theorem getFloat_missing {row : Row} {k : String}
    (h : rowGet row k = none) : getFloat row k = some 0 := by
  simp [getFloat, h]

theorem getRent_missing {row : Row} {k : String}
    (h : rowGet row k = none) : getRent row k = some none := by
  simp [getRent, h]

theorem truncQ_zero : truncQ 0 = 0 := by simp [truncQ]

/-! ## Claim theorems about the input normalizer and the analyze endpoint -/

/-- C6: every successfully parsed row satisfies
`effective_gross_income = gross_potential_rent * (1 - vacancy_rate)`; the
built-in record satisfies it; and the documented example row parses with
gross potential rent `2300000`, vacancy rate `0.06` and effective gross
income exactly `2162000`. -/
theorem c6_egi_invariant :
    (∀ rows om, parse_csv_om_data rows = Except.ok om →
      om.vacancy_egi.effective_gross_income =
        om.vacancy_egi.gross_potential_rent *
          (1 - om.vacancy_egi.vacancy_rate)) ∧
    (get_mock_om_data.vacancy_egi.effective_gross_income =
      get_mock_om_data.vacancy_egi.gross_potential_rent *
        (1 - get_mock_om_data.vacancy_egi.vacancy_rate)) ∧
    (∃ om, parse_csv_om_data [exampleRow] = Except.ok om ∧
      om.vacancy_egi.gross_potential_rent = 2300000 ∧
      om.vacancy_egi.vacancy_rate = 6 / 100 ∧
      om.vacancy_egi.effective_gross_income = 2162000) := by
  refine ⟨?_, by norm_num [get_mock_om_data], ?_⟩
  · intro rows om h
    cases rows with
    | nil => exact absurd h (by simp [parse_csv_om_data])
    | cons row rest =>
      simp only [parse_csv_om_data] at h
      by_cases hok : allFieldsOK row
      · rw [if_pos hok, Except.ok.injEq] at h
        subst h
        rfl
      · rw [if_neg hok] at h
        exact absurd h (by simp)
  · refine ⟨mkOMData exampleRow, rfl, ?_, ?_, ?_⟩
    · have h1 : (mkOMData exampleRow).vacancy_egi.gross_potential_rent =
          1 * (((2300000 : ℕ) : ℚ) / (10 ^ (0 : ℕ) : ℚ)) := rfl
      rw [h1]
      norm_num
    · have h2 : (mkOMData exampleRow).vacancy_egi.vacancy_rate =
          1 * (((6 : ℕ) : ℚ) / (10 ^ (2 : ℕ) : ℚ)) := rfl
      rw [h2]
      norm_num
    · have h3 : (mkOMData exampleRow).vacancy_egi.effective_gross_income =
          (1 * (((2300000 : ℕ) : ℚ) / (10 ^ (0 : ℕ) : ℚ))) *
            (1 - 1 * (((6 : ℕ) : ℚ) / (10 ^ (2 : ℕ) : ℚ))) := rfl
      rw [h3]
      norm_num

/-- C6 witness: the EGI invariant instantiated on the documented example
row. -/
theorem c6_witness :
    (mkOMData exampleRow).vacancy_egi.effective_gross_income =
      (mkOMData exampleRow).vacancy_egi.gross_potential_rent *
        (1 - (mkOMData exampleRow).vacancy_egi.vacancy_rate) :=
  c6_egi_invariant.1 [exampleRow] (mkOMData exampleRow) rfl

/-- C7: an unparseable upload makes `parse_csv_om_data` raise
`HTTPException(400, "Error parsing CSV: ...")`, but `analyze_om`'s blanket
`except Exception` catches that very exception and re-raises it as a generic
`HTTPException(500, "Analysis failed: ...")` — the caller sees a server
error, not the client-side 400 the claim (and the parser itself) intends. -/
theorem c7_parse_error_wrapped_as_500 :
    parse_csv_om_data [badRow] =
      Except.error
        ⟨400, "Error parsing CSV: could not convert string to float"⟩ ∧
    analyze_om (some [badRow]) noFilters [] [] =
      Except.error
        ⟨500,
          "Analysis failed: 400: Error parsing CSV: could not convert string to float"⟩ :=
  ⟨rfl, rfl⟩

/-- C8 counterexample: the example row with the `one_bed_rent` column removed
parses successfully, and the missing bedroom rent parses to `None` (absent),
not to `0` as the claim states. -/
theorem c8_counterexample :
    parse_csv_om_data [rowNoOneBed] = Except.ok (mkOMData rowNoOneBed) ∧
    rowGet rowNoOneBed "one_bed_rent" = none ∧
    (mkOMData rowNoOneBed).unit_rents.one_bed = none :=
  ⟨rfl, rfl, rfl⟩

/-- C8 (amended): on a successfully parsed row, each missing *non-rent*
numeric column parses to the value `0`, while each missing bedroom-rent
column parses to `None` (absent). -/
theorem c8_missing_field_defaults (row : Row) (om : OMData)
    (h : parse_csv_om_data [row] = Except.ok om) :
    (rowGet row "cap_rate" = none →
      om.property_summary.cap_rate = 0 ∧ om.financials.cap_rate = 0) ∧
    (rowGet row "rentable_sqft" = none →
      om.property_summary.rentable_sqft = 0) ∧
    (rowGet row "avg_sqft_per_unit" = none →
      om.property_summary.avg_sqft_per_unit = 0) ∧
    (rowGet row "asking_price" = none →
      om.property_summary.asking_price = 0) ∧
    (rowGet row "lot_size_acres" = none →
      om.property_summary.lot_size_acres = 0) ∧
    (rowGet row "total_units" = none →
      om.property_summary.total_units = 0) ∧
    (rowGet row "noi" = none → om.financials.noi = 0) ∧
    (rowGet row "price_per_sqft" = none →
      om.financials.price_per_sqft = 0) ∧
    (rowGet row "price_per_unit" = none →
      om.financials.price_per_unit = 0) ∧
    (rowGet row "price_per_acre" = none →
      om.financials.price_per_acre = 0) ∧
    (rowGet row "vacancy_rate" = none →
      om.vacancy_egi.vacancy_rate = 0) ∧
    (rowGet row "gross_potential_rent" = none →
      om.vacancy_egi.gross_potential_rent = 0) ∧
    (rowGet row "one_bed_rent" = none → om.unit_rents.one_bed = none) ∧
    (rowGet row "two_bed_rent" = none → om.unit_rents.two_bed = none) ∧
    (rowGet row "three_bed_rent" = none → om.unit_rents.three_bed = none) ∧
    (rowGet row "four_bed_rent" = none → om.unit_rents.four_bed = none) := by
  simp only [parse_csv_om_data] at h
  by_cases hok : allFieldsOK row
  · rw [if_pos hok, Except.ok.injEq] at h
    subst h
    refine ⟨fun hc => ⟨?_, ?_⟩, fun hc => ?_, fun hc => ?_, fun hc => ?_,
      fun hc => ?_, fun hc => ?_, fun hc => ?_, fun hc => ?_, fun hc => ?_,
      fun hc => ?_, fun hc => ?_, fun hc => ?_, fun hc => ?_, fun hc => ?_,
      fun hc => ?_, fun hc => ?_⟩ <;>
      simp [mkOMData, getFloat_missing hc, getRent_missing hc, truncQ_zero]
  · rw [if_neg hok] at h
    exact absurd h (by simp)

/-- C8 witness: the defaults theorem instantiated on the example row without
its `one_bed_rent` column. -/
theorem c8_witness : (mkOMData rowNoOneBed).unit_rents.one_bed = none :=
  (c8_missing_field_defaults rowNoOneBed (mkOMData rowNoOneBed)
        rfl).2.2.2.2.2.2.2.2.2.2.2.2.1 rfl

end HuntingParty

namespace HuntingParty

/-- C3 witness: the emission-guard characterization instantiated on the
worked-example inputs. -/
theorem c3_witness :
    (∃ r ∈ calculate_comparisons mockOMMetrics statsPPU291304 zeroStats,
      r.metric_name = "Price per Unit") ↔
      0 < statsPPU291304.avg_price_per_unit :=
  (c3_emission_guards mockOMMetrics statsPPU291304 zeroStats).1

end HuntingParty
